import Mathlib

/-!
Verification of the VCMTPv3 sender (Unidata/vcmtp, sender half) against its
natural-language specification.  The development shallowly embeds the parts of
`vcmtpSendv3.cpp`, `senderMetadata.h` and `RetxThreads.cpp` that the claims
are about: machine integers become `Nat` with explicit wraparound where the
source can overflow, wall-clock instants and the float timeout arithmetic
become `ℚ`, raw pointers become addresses (`Nat`) into an explicit byte memory
`Nat → Nat`, and the retransmission table becomes an association list keyed by
product index.  `senderMetadata.cpp` is not part of the sources, so the four
table operations declared in `senderMetadata.h` are modelled from the spec
(section 4.4); every such definition says so in its doc comment.
-/

namespace VCMTP

/-- Modelled from the spec: `VCMTP_DATA_LEN` lives in `vcmtpBase.h`, which is
not among the sources.  Spec section 8 scenario S1 fixes the value 1448 (the
maximum UDP payload of a data frame). -/
def VCMTP_DATA_LEN : Nat := 1448

/-- Modelled from the spec: `AVAIL_BOP_LEN` lives in `vcmtpBase.h`, which is
not among the sources.  It is `VCMTP_DATA_LEN` minus the fixed BOP prefix
(`prodsize: u32` plus `metasize: u16`), and the doc comment of
`vcmtpSendv3::sendProduct` bounds `metaSize` by 1442, so `AVAIL_BOP_LEN`
is 1442. -/
def AVAIL_BOP_LEN : Nat := 1442

/-- Modelled from the spec: the numeric values of the message tags live in
`vcmtpBase.h`, which is not among the sources; spec section 6 says distinct
integer tags suffice, so the flags field is modelled as an enumeration. -/
inductive VcmtpFlag
  | BOP
  | MEM_DATA
  | EOP
  | RETX_REQ
  | RETX_DATA
  | RETX_BOP
  | RETX_EOP
  | BOP_REQ
  | EOP_REQ
  | RETX_REJ
  | RETX_END
deriving DecidableEq

/-- Embeds the `VcmtpHeader` wire header (prodindex, seqnum, payloadlen,
flags).  Byte-order conversion (`htonl`/`htons`) is identity at this level of
abstraction: a header is compared field by field, not byte by byte. -/
structure VcmtpHeader where
  prodindex : Nat
  seqnum : Nat
  payloadlen : Nat
  flags : VcmtpFlag
deriving DecidableEq

/-- Body of a message written on a TCP retransmission channel: either nothing
(header-only message), a run of data bytes, or a BOP message
(`prodsize`, `metasize`, metadata bytes). -/
inductive MsgBody
  | empty
  | dataBytes (bytes : List Nat)
  | bopMsg (prodsize metasize : Nat) (metaBytes : List Nat)
deriving DecidableEq

/-- One complete message (header plus body) written via `TcpSend::send`. -/
structure TcpMsg where
  header : VcmtpHeader
  body : MsgBody
deriving DecidableEq

/-- Embeds `struct RetxMetadata` of `senderMetadata.h`.  The two raw pointers
`metadata` and `dataprod_p` are modelled as base addresses into an explicit
memory (address 0 plays the role of `NULL`); the `clock_t` instants and the
`float` ratio and period are modelled as `ℚ`; the `std::set<int>` of
unfinished receiver sockets is a `Finset ℤ`. -/
structure RetxMetadata where
  prodindex : Nat
  prodLength : Nat
  metaSize : Nat
  metadata : Nat
  mcastStartTime : ℚ
  mcastEndTime : ℚ
  retxTimeoutRatio : ℚ
  retxTimeoutPeriod : ℚ
  dataprod_p : Nat
  unfinReceivers : Finset ℤ
deriving DecidableEq

/-- Embeds the `RetxMetadata` default constructor of `senderMetadata.h`:
`prodindex(0), prodLength(0), metaSize(0), metadata(NULL), mcastStartTime(0.0),
mcastEndTime(0.0), retxTimeoutRatio(20.0), retxTimeoutPeriod(99999999999.0),
dataprod_p(NULL)` and an empty unfinished set. -/
def RetxMetadata.init : RetxMetadata where
  prodindex := 0
  prodLength := 0
  metaSize := 0
  metadata := 0
  mcastStartTime := 0
  mcastEndTime := 0
  retxTimeoutRatio := 20
  retxTimeoutPeriod := 99999999999
  dataprod_p := 0
  unfinReceivers := ∅

/-- The retransmission table `senderMetadata::indexMetaMap`
(`std::map<uint32_t, RetxMetadata*>`), modelled as an association list with at
most one binding per key (lookups take the first binding). -/
def Table : Type := List (Nat × RetxMetadata)

instance : DecidableEq Table := by
  unfold Table
  infer_instance

namespace senderMetadata

/-- Modelled from the spec: `senderMetadata::getMetadata` (declared in
`senderMetadata.h`; `senderMetadata.cpp` is not among the sources).  Spec
section 4.4: `get(prodindex) -> meta | none`. -/
def getMetadata (tbl : Table) (p : Nat) : Option RetxMetadata :=
  (List.find? (fun e => e.1 = p) tbl).map (fun e => e.2)

/-- Removal of every binding of key `p` from the association list; the
underlying `std::map::erase`. -/
def tblRemove (tbl : Table) (p : Nat) : Table :=
  List.filter (fun e => ¬ e.1 = p) tbl

/-- Replacement of the binding of key `p` (insert-or-assign on the
association list); the underlying `std::map` subscript assignment. -/
def tblUpdate (tbl : Table) (p : Nat) (m : RetxMetadata) : Table :=
  (p, m) :: tblRemove tbl p

/-- Modelled from the spec: `senderMetadata::addRetxMetadata` (declared in
`senderMetadata.h`; `senderMetadata.cpp` is not among the sources).  Spec
section 4.4: `add(meta)` inserts under the unique key `meta.prodindex`. -/
def addRetxMetadata (tbl : Table) (m : RetxMetadata) : Table :=
  tblUpdate tbl m.prodindex m

/-- Modelled from the spec: `senderMetadata::rmRetxMetadata` (declared in
`senderMetadata.h`; `senderMetadata.cpp` is not among the sources).  Spec
section 4.4: `remove(prodindex) -> removed: bool` removes the entry
unconditionally and returns true iff it was present. -/
def rmRetxMetadata (tbl : Table) (p : Nat) : Bool × Table :=
  match getMetadata tbl p with
  | none => (false, tbl)
  | some _ => (true, tblRemove tbl p)

/-- Modelled from the spec: `senderMetadata::clearUnfinishedSet` (declared in
`senderMetadata.h`; `senderMetadata.cpp` is not among the sources).  Spec
section 4.4: `clear_unfinished(prodindex, receiver-id) -> removed: bool`
removes the receiver from the entry's set; if the set becomes empty it removes
the entry from the table and returns true, otherwise false; absent entries
also return false. -/
def clearUnfinishedSet (tbl : Table) (p : Nat) (sock : ℤ) : Bool × Table :=
  match getMetadata tbl p with
  | none => (false, tbl)
  | some m =>
      let s := m.unfinReceivers.erase sock
      if s = ∅ then
        (true, tblRemove tbl p)
      else
        (false, tblUpdate tbl p { m with unfinReceivers := s })

end senderMetadata

namespace RetxThreads

/-- Embeds `RetxThreads::add` (`RetxThreads.cpp`): `threads.push_front(thread)`.
Thread handles are modelled as naturals. -/
def add (t : Nat) (l : List Nat) : List Nat :=
  t :: l

/-- Embeds `RetxThreads::remove` (`RetxThreads.cpp`):
`threads.remove_if(Equals(thread))` removes every handle equal to the
argument. -/
def remove (t : Nat) (l : List Nat) : List Nat :=
  List.filter (fun x => ¬ x = t) l

/-- Embeds `RetxThreads::shutdown` (`RetxThreads.cpp`).  The loop issues
`pthread_cancel` for every member, in list order; the first component is the
list of handles cancelled.  The final statement of the source is
`(void)threads.empty();` — the emptiness QUERY of `std::list`, whose boolean
result is discarded — so the container is left unchanged; the second component
is the list as it stands after the call. -/
def shutdown (l : List Nat) : List Nat × List Nat :=
  (l, l)

end RetxThreads

/-- Embeds one iteration of the loop body of `vcmtpSendv3::timerThread`
(`vcmtpSendv3.cpp` lines 1100-1126).  The source declares an outer
`uint32_t prodindex;` left uninitialized, then inside the `try` block declares
a NEW local `uint32_t prodindex = timerDelayQ.pop();` that shadows it and dies
at the end of the block.  `rmRetxMetadata` and the notification therefore read
the indeterminate outer variable, modelled here by the parameter `junk`; the
popped index `popped` is ignored, exactly as in the source.  The result is the
table after the call and the list of product indices passed to
`notifier->notify_of_eop` (the notifier is taken to be non-null). -/
def timerIter (junk : Nat) (popped : Nat) (tbl : Table) : Table × List Nat :=
  let r := senderMetadata.rmRetxMetadata tbl junk
  (r.2, if r.1 then [junk] else [])

/-- Modelled from the spec: one iteration of the timer loop as mandated by
spec section 4.7 — `pop` from the delay queue, `remove` on the table for that
same popped prodindex, and iff the removal returned true fire the application
notification with that same popped prodindex. -/
def timerIterMandated (popped : Nat) (tbl : Table) : Table × List Nat :=
  let r := senderMetadata.rmRetxMetadata tbl popped
  (r.2, if r.1 then [popped] else [])

/-- The sender-facade state that the claims observe: the `prodIndex` counter
(a `uint32_t`, so increments wrap at `2^32`), the configured
`retxTimeoutRatio`, and the retransmission table owned through `sendMeta`. -/
structure SenderState where
  prodIndex : Nat
  retxTimeoutRatio : ℚ
  sendMeta : Table
deriving DecidableEq

namespace vcmtpSendv3

/-- Embeds the 4-argument constructor of `vcmtpSendv3` (`vcmtpSendv3.cpp`
lines 60-78): `prodIndex(0), retxTimeoutRatio(500000.0)`, empty table. -/
def mkSender : SenderState where
  prodIndex := 0
  retxTimeoutRatio := 500000
  sendMeta := []

/-- Embeds the 7-argument constructor of `vcmtpSendv3` (initial prodindex,
notifier, ttl): `prodIndex(initProdIndex), retxTimeoutRatio(500000.0)`. -/
def mkSenderAt (initProdIndex : Nat) : SenderState where
  prodIndex := initProdIndex
  retxTimeoutRatio := 500000
  sendMeta := []

/-- Embeds the 8-argument constructor of `vcmtpSendv3` (caller-supplied
timeout ratio): `prodIndex(initProdIndex), retxTimeoutRatio(timeoutRatio)`. -/
def mkSenderRatio (initProdIndex : Nat) (timeoutRatio : ℚ) : SenderState where
  prodIndex := initProdIndex
  retxTimeoutRatio := timeoutRatio
  sendMeta := []

/-- Embeds `vcmtpSendv3::addRetxMetadata` (`vcmtpSendv3.cpp` lines 379-421):
builds a fresh `RetxMetadata` (default-constructed, then each field assigned
exactly as in the source), snapshots the currently connected sockets into the
unfinished-receiver set, inserts the entry into the table, and records the
multicast start time.  In the source the start time is stored through the
still-held pointer just after insertion; in this pure model the field is set
on the record that is inserted, which yields the same table entry.  `now` is
the `HRclock::now()` reading and `connSockList` the result of
`TcpSend::getConnSockList()`. -/
def addRetxMetadata (st : SenderState) (dataPtr dataSize metaPtr metaSize : Nat)
    (connSockList : List ℤ) (now : ℚ) : RetxMetadata × SenderState :=
  let m : RetxMetadata :=
    { RetxMetadata.init with
        prodindex := st.prodIndex
        prodLength := dataSize
        metaSize := metaSize
        metadata := metaPtr
        dataprod_p := dataPtr
        retxTimeoutRatio := st.retxTimeoutRatio
        unfinReceivers := connSockList.foldl (fun s x => insert x s) ∅
        mcastStartTime := now }
  (m, { st with sendMeta := senderMetadata.addRetxMetadata st.sendMeta m })

/-- Embeds `vcmtpSendv3::setTimerParameters` (`vcmtpSendv3.cpp` lines
980-993): records the multicast end time and sets
`retxTimeoutPeriod = (mcastEndTime - mcastStartTime) * retxTimeoutRatio`. -/
def setTimerParameters (m : RetxMetadata) (now : ℚ) : RetxMetadata :=
  { m with
      mcastEndTime := now
      retxTimeoutPeriod := (now - m.mcastStartTime) * m.retxTimeoutRatio }

/-- Errors thrown by `vcmtpSendv3::sendProduct`: `std::invalid_argument` from
validation and `std::runtime_error` (or `std::system_error`) from the send
and push steps. -/
inductive SendErr
  | invalidArgument (msg : String)
  | runtimeError (msg : String)
deriving DecidableEq

instance : DecidableEq (Except SendErr Nat) := fun x y =>
  match x, y with
  | Except.ok a, Except.ok b =>
      if h : a = b then isTrue (by rw [h])
      else isFalse (by intro hc; cases hc; exact h rfl)
  | Except.error a, Except.error b =>
      if h : a = b then isTrue (by rw [h])
      else isFalse (by intro hc; cases hc; exact h rfl)
  | Except.ok _, Except.error _ => isFalse (by intro hc; cases hc)
  | Except.error _, Except.ok _ => isFalse (by intro hc; cases hc)

/-- The environment a `sendProduct` call runs in: the snapshot of connected
sockets, the two clock readings (at `addRetxMetadata` and at
`setTimerParameters`), and whether each fallible I/O step succeeds
(`SendBOPMessage`, `sendData`, `sendEOPMessage`, `timerDelayQ.push`). -/
structure SendEnv where
  connSockList : List ℤ
  startClock : ℚ
  endClock : ℚ
  bopOk : Bool
  dataOk : Bool
  eopOk : Bool
  pushOk : Bool
deriving DecidableEq

/-- The part of `vcmtpSendv3::sendProduct` after validation succeeds:
`addRetxMetadata`, the three multicast send steps, `setTimerParameters`
(which in the source mutates the entry already in the table through the
shared pointer, modelled by re-inserting the updated record), the delay-queue
push, and finally `return prodIndex++` with `uint32_t` wraparound.  The
result carries the thrown error or the returned index, the state after the
call (a throwing call leaves `prodIndex` untouched but keeps the entry
already inserted), and the list of `(prodindex, period)` pairs pushed into
`timerDelayQ`. -/
def sendProductRest (env : SendEnv) (dataPtr dataSize metaPtr metaSize : Nat)
    (st : SenderState) : Except SendErr Nat × SenderState × List (Nat × ℚ) :=
  let r := addRetxMetadata st dataPtr dataSize metaPtr metaSize
             env.connSockList env.startClock
  let senderProdMeta := r.1
  let st1 := r.2
  if env.bopOk = false then
    (Except.error (SendErr.runtimeError "SendBOPMessage failed"), st1, [])
  else if env.dataOk = false then
    (Except.error (SendErr.runtimeError "SendData failed"), st1, [])
  else if env.eopOk = false then
    (Except.error (SendErr.runtimeError "sendEOPMessage failed"), st1, [])
  else
    let meta2 := setTimerParameters senderProdMeta env.endClock
    let st2 : SenderState :=
      { st1 with sendMeta := senderMetadata.tblUpdate st1.sendMeta
                               meta2.prodindex meta2 }
    if env.pushOk = false then
      (Except.error (SendErr.runtimeError "timerDelayQ push failed"), st2, [])
    else
      (Except.ok st.prodIndex,
       { st2 with prodIndex := (st.prodIndex + 1) % 4294967296 },
       [(st.prodIndex, meta2.retxTimeoutPeriod)])

/-- Embeds `vcmtpSendv3::sendProduct` (`vcmtpSendv3.cpp` lines 232-281).  The
validation chain mirrors the source exactly: `data == NULL`, then
`dataSize > 0xFFFFFFFFu`, then — only when `metadata` is non-null —
`AVAIL_BOP_LEN < metaSize`, otherwise `metaSize != 0`.  Null pointers are
address 0. -/
def sendProduct (env : SendEnv) (dataPtr dataSize metaPtr metaSize : Nat)
    (st : SenderState) : Except SendErr Nat × SenderState × List (Nat × ℚ) :=
  if dataPtr = 0 then
    (Except.error (SendErr.invalidArgument "data pointer is NULL"), st, [])
  else if 4294967295 < dataSize then
    (Except.error (SendErr.invalidArgument "dataSize out of range"), st, [])
  else if ¬ metaPtr = 0 then
    if AVAIL_BOP_LEN < metaSize then
      (Except.error (SendErr.invalidArgument "metaSize too large"), st, [])
    else
      sendProductRest env dataPtr dataSize metaPtr metaSize st
  else if ¬ metaSize = 0 then
    (Except.error (SendErr.invalidArgument "Non-zero metaSize"), st, [])
  else
    sendProductRest env dataPtr dataSize metaPtr metaSize st

/-- One RETX_DATA frame emitted by `vcmtpSendv3::retransmit`: the `seqnum`
and `payloadlen` written into the header and the payload bytes sent after
it. -/
structure RetxFrame where
  seqnum : Nat
  payloadlen : Nat
  body : List Nat
deriving DecidableEq

/-- The `payloadlen` bytes read from memory at offset `start` into the
product whose data lives at base address `base`. -/
def frameBytes (mem : Nat → Nat) (base start len : Nat) : List Nat :=
  (List.range len).map (fun k => mem (base + start + k))

/-- Embeds the `for` loop of `vcmtpSendv3::retransmit` (`vcmtpSendv3.cpp`
lines 693-715).  `start` is the block-aligned offset computed before the
loop, `payLen` the running payload length (initially `VCMTP_DATA_LEN`),
`nbytes` the loop counter `out - start`.  Each iteration clamps `payLen` to
`nbytes` (only the last block may be truncated), emits one frame with
header offset `start`, and subtracts.  The source never advances `start`
inside the loop, and this embedding faithfully reproduces that: every frame
is emitted with the same `start`.  The extra guard `0 < payLen` only rules
out the (unreachable, since the initial value is `VCMTP_DATA_LEN`) case in
which the C loop would not terminate. -/
def retxLoop (mem : Nat → Nat) (base start payLen nbytes : Nat) : List RetxFrame :=
  if h : 0 < nbytes ∧ 0 < payLen then
    let pl := if nbytes < payLen then nbytes else payLen
    RetxFrame.mk start pl (frameBytes mem base start pl) ::
      retxLoop mem base start pl (nbytes - pl)
  else
    []
termination_by nbytes
decreasing_by
  rcases h with ⟨h1, h2⟩
  split <;> omega

/-- Embeds `vcmtpSendv3::retransmit` (`vcmtpSendv3.cpp` lines 668-717).
When the requested `payloadlen` is positive: `out` is
`MIN(prodLength, seqnum + payloadlen)` (computed before aligning), `start`
is `seqnum` aligned down to a multiple of `VCMTP_DATA_LEN`, and the loop
runs on `out - start` bytes.  The subtraction is the truncated `Nat` one;
the source computes it in `uint32_t`, and the two agree whenever
`start ≤ out`, which holds on the domain of every claim about this
function. -/
def retransmit (mem : Nat → Nat) (hdrSeqnum hdrPayloadlen : Nat)
    (retxMeta : RetxMetadata) : List RetxFrame :=
  if 0 < hdrPayloadlen then
    let out := min retxMeta.prodLength (hdrSeqnum + hdrPayloadlen)
    let start := hdrSeqnum / VCMTP_DATA_LEN * VCMTP_DATA_LEN
    retxLoop mem retxMeta.dataprod_p start VCMTP_DATA_LEN (out - start)
  else
    []

/-- Concatenation of the payload bytes of a run of RETX_DATA frames. -/
def bodyConcat (fs : List RetxFrame) : List Nat :=
  fs.foldr (fun f acc => f.body ++ acc) []

/-- Embeds `vcmtpSendv3::rejRetxReq` (`vcmtpSendv3.cpp` lines 646-655): one
header-only message echoing the requested prodindex, `seqnum` 0,
`payloadlen` 0, flags `RETX_REJ`. -/
def rejRetxReq (prodindex : Nat) : TcpMsg where
  header := VcmtpHeader.mk prodindex 0 0 VcmtpFlag.RETX_REJ
  body := MsgBody.empty

/-- Embeds `vcmtpSendv3::retransBOP` (`vcmtpSendv3.cpp` lines 732-766): one
message whose header echoes the prodindex with
`payloadlen = metaSize + (VCMTP_DATA_LEN - AVAIL_BOP_LEN)` and flags
`RETX_BOP`, and whose body is the BOP message: the cached product length,
the cached metadata size, and `metaSize` bytes copied — at retransmission
time, by the `memcpy` in the source — from the memory at the pointer cached
in the entry. -/
def retransBOP (mem : Nat → Nat) (recvheader : VcmtpHeader)
    (retxMeta : RetxMetadata) : TcpMsg where
  header := VcmtpHeader.mk recvheader.prodindex 0
              (retxMeta.metaSize + (VCMTP_DATA_LEN - AVAIL_BOP_LEN))
              VcmtpFlag.RETX_BOP
  body := MsgBody.bopMsg retxMeta.prodLength retxMeta.metaSize
            ((List.range retxMeta.metaSize).map (fun k => mem (retxMeta.metadata + k)))

/-- Embeds `vcmtpSendv3::retransEOP` (`vcmtpSendv3.cpp` lines 777-802): one
header-only message echoing the prodindex with flags `RETX_EOP`. -/
def retransEOP (recvheader : VcmtpHeader) : TcpMsg where
  header := VcmtpHeader.mk recvheader.prodindex 0 0 VcmtpFlag.RETX_EOP
  body := MsgBody.empty

/-- Embeds `vcmtpSendv3::handleRetxReq` (`vcmtpSendv3.cpp` lines 461-475):
retransmit when the entry exists, otherwise reject.  The result is the list
of messages written on the receiver's socket. -/
def handleRetxReq (mem : Nat → Nat) (recvheader : VcmtpHeader)
    (retxMeta : Option RetxMetadata) : List TcpMsg :=
  match retxMeta with
  | some m =>
      (retransmit mem recvheader.seqnum recvheader.payloadlen m).map
        (fun fr => TcpMsg.mk
          (VcmtpHeader.mk recvheader.prodindex fr.seqnum fr.payloadlen
            VcmtpFlag.RETX_DATA)
          (MsgBody.dataBytes fr.body))
  | none => [rejRetxReq recvheader.prodindex]

/-- Embeds `vcmtpSendv3::handleBopReq` (`vcmtpSendv3.cpp` lines 519-533). -/
def handleBopReq (mem : Nat → Nat) (recvheader : VcmtpHeader)
    (retxMeta : Option RetxMetadata) : List TcpMsg :=
  match retxMeta with
  | some m => [retransBOP mem recvheader m]
  | none => [rejRetxReq recvheader.prodindex]

/-- Embeds `vcmtpSendv3::handleEopReq` (`vcmtpSendv3.cpp` lines 545-559). -/
def handleEopReq (recvheader : VcmtpHeader)
    (retxMeta : Option RetxMetadata) : List TcpMsg :=
  match retxMeta with
  | some _ => [retransEOP recvheader]
  | none => [rejRetxReq recvheader.prodindex]

/-- Embeds `vcmtpSendv3::handleRetxEnd` (`vcmtpSendv3.cpp` lines 487-507):
when the entry is absent nothing at all is done; when it is present,
`clearUnfinishedSet` runs and, iff it returned true, the application
notifier fires with the requested prodindex.  No message is ever written on
the TCP connection.  The result is the table after the call, the messages
written, and the prodindices notified. -/
def handleRetxEnd (recvheader : VcmtpHeader) (retxMeta : Option RetxMetadata)
    (tbl : Table) (sock : ℤ) : Table × List TcpMsg × List Nat :=
  match retxMeta with
  | none => (tbl, [], [])
  | some _ =>
      let r := senderMetadata.clearUnfinishedSet tbl recvheader.prodindex sock
      (r.2, [], if r.1 then [recvheader.prodindex] else [])

/-- Embeds one iteration of `vcmtpSendv3::RunRetxThread` (`vcmtpSendv3.cpp`
lines 581-635): look the requested prodindex up in the table, then dispatch
on the flags of the received header; any other flag value falls through the
`if`/`else if` chain and does nothing.  The result is the table after the
iteration, the messages written on the receiver's socket, and the
prodindices notified. -/
def workerStep (mem : Nat → Nat) (recvheader : VcmtpHeader) (tbl : Table)
    (sock : ℤ) : Table × List TcpMsg × List Nat :=
  let retxMeta := senderMetadata.getMetadata tbl recvheader.prodindex
  match recvheader.flags with
  | VcmtpFlag.RETX_REQ => (tbl, handleRetxReq mem recvheader retxMeta, [])
  | VcmtpFlag.RETX_END => handleRetxEnd recvheader retxMeta tbl sock
  | VcmtpFlag.BOP_REQ => (tbl, handleBopReq mem recvheader retxMeta, [])
  | VcmtpFlag.EOP_REQ => (tbl, handleEopReq recvheader retxMeta, [])
  | _ => (tbl, [], [])

end vcmtpSendv3

/-! ### Interleavings of the END path and the timer path

Spec section 4.4 makes `clearUnfinishedSet` and `rmRetxMetadata` mutually
exclusive writers on the table (in the source they are serialized by the
write side of `indexMetaMapLock`), so an interleaving of the END-handling
workers and the timer is, as far as the table is concerned, a sequence of
atomic operations.  For a fixed product index the operations touching that
product are the `clearUnfinishedSet` calls made by `handleRetxEnd` (one per
received END, carrying the receiver's socket) and the `rmRetxMetadata` call
made by the timer; the boolean each returns is the sole notification
trigger. -/

/-- One atomic table operation on a fixed product: a `clearUnfinishedSet`
from the END path (with the receiver's socket) or the timer's
`rmRetxMetadata`. -/
inductive C1Op
  | clear (sock : ℤ)
  | remove
deriving DecidableEq

/-- Applies one operation on product `p` to the table, returning the
notification trigger and the new table. -/
def c1Step (p : Nat) (tbl : Table) : C1Op → Bool × Table
  | C1Op.clear sock => senderMetadata.clearUnfinishedSet tbl p sock
  | C1Op.remove => senderMetadata.rmRetxMetadata tbl p

/-- Runs a sequence of operations on product `p` and counts how many of them
returned true — that is, how many times `notify_of_eop` fires for `p`. -/
def c1Run (p : Nat) : List C1Op → Table → Nat
  | [], _ => 0
  | op :: ops, tbl =>
      let r := c1Step p tbl op
      (if r.1 then 1 else 0) + c1Run p ops r.2

/-! ### Concrete instances used by witnesses and counterexamples -/

/-- A table entry for product 0 with two unfinished receivers. -/
def metaA : RetxMetadata :=
  { RetxMetadata.init with prodindex := 0, unfinReceivers := {1, 2} }

/-- A table entry for product 5 with one unfinished receiver. -/
def meta5 : RetxMetadata :=
  { RetxMetadata.init with prodindex := 5, unfinReceivers := {1} }

/-- A 2896-byte product (exactly two full data blocks) whose data lives at
address 0. -/
def metaC5 : RetxMetadata :=
  { RetxMetadata.init with prodLength := 2896 }

/-- The identity memory: the byte at address `a` is `a`. -/
def memId : Nat → Nat := fun a => a

/-- A memory in which every byte reads 1 (the caller's metadata buffer
before mutation). -/
def memBefore : Nat → Nat := fun _ => 1

/-- A memory in which every byte reads 2 (the caller's metadata buffer after
mutation). -/
def memAfter : Nat → Nat := fun _ => 2

/-- A memory that differs from `memBefore` only below address 100. -/
def memLow : Nat → Nat := fun a => if a < 100 then 7 else 1

/-- An environment in which every fallible step of `sendProduct` succeeds;
two receivers are connected, the multicast lasts from instant 1 to
instant 3. -/
def envOk : vcmtpSendv3.SendEnv where
  connSockList := [1, 2]
  startClock := 1
  endClock := 3
  bopOk := true
  dataOk := true
  eopOk := true
  pushOk := true

/-- An environment in which the BOP multicast send fails. -/
def envBopFail : vcmtpSendv3.SendEnv where
  connSockList := [1, 2]
  startClock := 1
  endClock := 3
  bopOk := false
  dataOk := true
  eopOk := true
  pushOk := true

/-- The entry produced by inserting a product with a 1-byte metadata buffer
at address 100 into a freshly constructed sender. -/
def meta9 : RetxMetadata :=
  (vcmtpSendv3.addRetxMetadata vcmtpSendv3.mkSender 1 4 100 1 [] 0).1

/-- A BOP_REQ header for product 0. -/
def hdr9 : VcmtpHeader := VcmtpHeader.mk 0 0 0 VcmtpFlag.BOP_REQ

theorem getMetadata_tblRemove (tbl : Table) (p : Nat) :
    senderMetadata.getMetadata (senderMetadata.tblRemove tbl p) p = none := by
  induction tbl with
  | nil => rfl
  | cons e tl ih =>
      by_cases he : e.1 = p
      · simpa [senderMetadata.tblRemove, he] using ih
      · simpa [senderMetadata.tblRemove, senderMetadata.getMetadata,
          List.find?, he] using ih

theorem getMetadata_tblUpdate (tbl : Table) (p : Nat) (m : RetxMetadata) :
    senderMetadata.getMetadata (senderMetadata.tblUpdate tbl p m) p = some m := by
  simp [senderMetadata.tblUpdate, senderMetadata.getMetadata, List.find?]

/-- An operation on an absent product is a no-op that does not fire. -/
theorem c1Step_absent (p : Nat) (tbl : Table) (op : C1Op)
    (h : senderMetadata.getMetadata tbl p = none) :
    c1Step p tbl op = (false, tbl) := by
  cases op with
  | clear sock => simp [c1Step, senderMetadata.clearUnfinishedSet, h]
  | remove => simp [c1Step, senderMetadata.rmRetxMetadata, h]

/-- An operation that fires leaves the product absent from the table. -/
theorem c1Step_fired_absent (p : Nat) (tbl : Table) (op : C1Op)
    (h : (c1Step p tbl op).1 = true) :
    senderMetadata.getMetadata (c1Step p tbl op).2 p = none := by
  cases op with
  | clear sock =>
      simp only [c1Step, senderMetadata.clearUnfinishedSet] at h ⊢
      cases hg : senderMetadata.getMetadata tbl p with
      | none => simp [hg] at h
      | some m =>
          simp only [hg] at h ⊢
          by_cases hs : m.unfinReceivers.erase sock = ∅
          · simpa [hs] using getMetadata_tblRemove tbl p
          · simp [hs] at h
  | remove =>
      simp only [c1Step, senderMetadata.rmRetxMetadata] at h ⊢
      cases hg : senderMetadata.getMetadata tbl p with
      | none => simp [hg] at h
      | some m => simpa [hg] using getMetadata_tblRemove tbl p

/-- An operation that does not fire keeps a present product present. -/
theorem c1Step_not_fired_present (p : Nat) (tbl : Table) (op : C1Op)
    (m : RetxMetadata) (hp : senderMetadata.getMetadata tbl p = some m)
    (h : (c1Step p tbl op).1 = false) :
    ∃ m', senderMetadata.getMetadata (c1Step p tbl op).2 p = some m' := by
  cases op with
  | clear sock =>
      simp only [c1Step, senderMetadata.clearUnfinishedSet, hp] at h ⊢
      by_cases hs : m.unfinReceivers.erase sock = ∅
      · simp [hs] at h
      · exact ⟨_, by simpa [hs] using
          getMetadata_tblUpdate tbl p { m with unfinReceivers := m.unfinReceivers.erase sock }⟩
  | remove =>
      simp [c1Step, senderMetadata.rmRetxMetadata, hp] at h

/-- No operation in a run on an absent product fires. -/
theorem c1Run_absent (p : Nat) (ops : List C1Op) (tbl : Table)
    (h : senderMetadata.getMetadata tbl p = none) :
    c1Run p ops tbl = 0 := by
  induction ops with
  | nil => rfl
  | cons op rest ih =>
      simp [c1Run, c1Step_absent p tbl op h, ih]

/-- At most one operation of any run fires. -/
theorem c1Run_le_one (p : Nat) (ops : List C1Op) (tbl : Table) :
    c1Run p ops tbl ≤ 1 := by
  induction ops generalizing tbl with
  | nil => simp [c1Run]
  | cons op rest ih =>
      simp only [c1Run]
      cases hf : (c1Step p tbl op).1 with
      | false => simp [ih]
      | true =>
          have habs := c1Step_fired_absent p tbl op hf
          simp [c1Run_absent p rest _ habs]

/-- If the product is present and the timer's remove is among the
operations, exactly one operation fires. -/
theorem c1Run_eq_one (p : Nat) (ops : List C1Op) (tbl : Table)
    (m : RetxMetadata) (hp : senderMetadata.getMetadata tbl p = some m)
    (hr : C1Op.remove ∈ ops) :
    c1Run p ops tbl = 1 := by
  induction ops generalizing tbl m with
  | nil => cases hr
  | cons op rest ih =>
      simp only [c1Run]
      cases hf : (c1Step p tbl op).1 with
      | true =>
          have habs := c1Step_fired_absent p tbl op hf
          simp [c1Run_absent p rest _ habs]
      | false =>
          obtain ⟨m', hm'⟩ := c1Step_not_fired_present p tbl op m hp hf
          have hop : op ≠ C1Op.remove := by
            intro he
            subst he
            simp [c1Step, senderMetadata.rmRetxMetadata, hp] at hf
          have hr' : C1Op.remove ∈ rest := by
            rcases List.mem_cons.mp hr with h1 | h1
            · exact absurd h1.symm hop
            · exact h1
          simpa using ih _ m' hm' hr'

/-- Claim C1: for every product present in the retransmission table and
every interleaving of the END-handling workers (whose `handleRetxEnd` calls
`clearUnfinishedSet`) with the timer (whose loop calls `rmRetxMetadata`) —
the two operations are serialized by the table's write lock, so an
interleaving is a sequence of atomic operations — at most one operation
returns true, hence `notify_of_eop` fires at most once for the product; and
as soon as the timer's remove occurs in the interleaving, exactly one
operation returns true and every other operation is a no-op. -/
theorem c1_notification_exactly_once (p : Nat) (ops : List C1Op) (tbl : Table)
    (m : RetxMetadata) (hp : senderMetadata.getMetadata tbl p = some m)
    (hr : C1Op.remove ∈ ops) :
    c1Run p ops tbl = 1 ∧
      ∀ (ops' : List C1Op) (tbl' : Table), c1Run p ops' tbl' ≤ 1 :=
  ⟨c1Run_eq_one p ops tbl m hp hr, fun ops' tbl' => c1Run_le_one p ops' tbl'⟩

/-- Witness for C1: product 0 with unfinished receivers 1 and 2; receiver 1
sends END (clears but does not empty the set), then the timer removes the
entry; exactly one of the two fires. -/
theorem c1_notification_exactly_once_witness :
    c1Run 0 [C1Op.clear 1, C1Op.remove] [(0, metaA)] = 1 ∧
      ∀ (ops' : List C1Op) (tbl' : Table), c1Run 0 ops' tbl' ≤ 1 :=
  c1_notification_exactly_once 0 [C1Op.clear 1, C1Op.remove] [(0, metaA)]
    metaA (by decide) (by decide)

/-- Claim C2 is violated by the code (a code bug): in
`vcmtpSendv3::timerThread` the popped product index is bound to a local that
shadows the uninitialized outer `prodindex`, so `rmRetxMetadata` and the
notification read an indeterminate value.  At the failing input — the queue
pops product 5, the table holds exactly product 5, and the indeterminate
outer variable happens to hold 0 — the code removes nothing and notifies
nobody, while the spec-mandated loop removes product 5 and notifies it. -/
theorem c2_timer_reads_shadowed_uninitialized :
    timerIter 0 5 [(5, meta5)] = ([(5, meta5)], []) ∧
      timerIterMandated 5 [(5, meta5)] = ([], [5]) ∧
      timerIter 0 5 [(5, meta5)] ≠ timerIterMandated 5 [(5, meta5)] := by
  decide

/-- Claim C7 is violated by the code (a code bug): `RetxThreads::shutdown`
cancels every handle in the list but ends with `(void)threads.empty();` —
the emptiness query, not `clear()` — so the list is NOT emptied.  At the
failing input, a list holding the single handle 7, every handle is
cancelled yet the list still holds 7 afterwards. -/
theorem c7_shutdown_leaves_list_nonempty :
    RetxThreads.shutdown [7] = ([7], [7]) ∧
      (RetxThreads.shutdown [7]).2 ≠ [] := by
  decide

/-- The post-validation part of `sendProduct` only ever throws
`std::runtime_error`, never `std::invalid_argument`. -/
theorem sendProductRest_not_invalidArgument (env : vcmtpSendv3.SendEnv)
    (dataPtr dataSize metaPtr metaSize : Nat) (st : SenderState) (msg : String) :
    (vcmtpSendv3.sendProductRest env dataPtr dataSize metaPtr metaSize st).1 ≠
      Except.error (vcmtpSendv3.SendErr.invalidArgument msg) := by
  unfold vcmtpSendv3.sendProductRest
  split_ifs <;> simp

/-- The post-validation part of `sendProduct` succeeds iff every fallible
step succeeds. -/
theorem sendProductRest_ok_iff (env : vcmtpSendv3.SendEnv)
    (dataPtr dataSize metaPtr metaSize : Nat) (st : SenderState) :
    (∃ n, (vcmtpSendv3.sendProductRest env dataPtr dataSize metaPtr metaSize st).1 =
        Except.ok n) ↔
      (env.bopOk = true ∧ env.dataOk = true ∧ env.eopOk = true ∧
        env.pushOk = true) := by
  unfold vcmtpSendv3.sendProductRest
  split_ifs with h1 h2 h3 h4 <;> simp_all

/-- The post-validation part of `sendProduct` never changes the `prodIndex`
counter except on full success, where it returns the entry value and bumps
the counter once (with `uint32_t` wraparound). -/
theorem sendProductRest_counter (env : vcmtpSendv3.SendEnv)
    (dataPtr dataSize metaPtr metaSize : Nat) (st : SenderState) :
    (∀ n, (vcmtpSendv3.sendProductRest env dataPtr dataSize metaPtr metaSize st).1 =
        Except.ok n →
        n = st.prodIndex ∧
          (vcmtpSendv3.sendProductRest env dataPtr dataSize metaPtr metaSize st).2.1.prodIndex =
            (st.prodIndex + 1) % 4294967296) ∧
      ∀ e, (vcmtpSendv3.sendProductRest env dataPtr dataSize metaPtr metaSize st).1 =
          Except.error e →
        (vcmtpSendv3.sendProductRest env dataPtr dataSize metaPtr metaSize st).2.1.prodIndex =
          st.prodIndex := by
  unfold vcmtpSendv3.sendProductRest
  split_ifs <;> simp [vcmtpSendv3.addRetxMetadata]

/-- Claim C3: a `sendProduct` call fails with `std::invalid_argument` iff at
least one of the following holds — `data` is null; `dataSize` exceeds
`2^32 - 1`; `metadata` is non-null and `metaSize > AVAIL_BOP_LEN`; or
`metadata` is null and `metaSize` is non-zero.  Otherwise validation passes
and no `invalid_argument` error is raised. -/
theorem c3_invalid_argument_iff (env : vcmtpSendv3.SendEnv)
    (dataPtr dataSize metaPtr metaSize : Nat) (st : SenderState) :
    (∃ msg, (vcmtpSendv3.sendProduct env dataPtr dataSize metaPtr metaSize st).1 =
        Except.error (vcmtpSendv3.SendErr.invalidArgument msg)) ↔
      (dataPtr = 0 ∨ 4294967295 < dataSize ∨
        (¬ metaPtr = 0 ∧ AVAIL_BOP_LEN < metaSize) ∨
        (metaPtr = 0 ∧ ¬ metaSize = 0)) := by
  unfold vcmtpSendv3.sendProduct
  split_ifs with h1 h2 h3 h4 h5 <;>
    simp_all [sendProductRest_not_invalidArgument]

/-- Claim C4: the value returned by `sendProduct` is the `prodIndex` counter
at entry; a successful call increments the counter exactly once (with
`uint32_t` wraparound) and a throwing call leaves it untouched; and the call
succeeds — hence the increment happens — iff validation passes and every
send and the delay-queue push succeed. -/
theorem c4_prodindex_counter (env : vcmtpSendv3.SendEnv)
    (dataPtr dataSize metaPtr metaSize : Nat) (st : SenderState) :
    (∀ n, (vcmtpSendv3.sendProduct env dataPtr dataSize metaPtr metaSize st).1 =
        Except.ok n →
        n = st.prodIndex ∧
          (vcmtpSendv3.sendProduct env dataPtr dataSize metaPtr metaSize st).2.1.prodIndex =
            (st.prodIndex + 1) % 4294967296) ∧
      (∀ e, (vcmtpSendv3.sendProduct env dataPtr dataSize metaPtr metaSize st).1 =
          Except.error e →
        (vcmtpSendv3.sendProduct env dataPtr dataSize metaPtr metaSize st).2.1.prodIndex =
          st.prodIndex) ∧
      ((∃ n, (vcmtpSendv3.sendProduct env dataPtr dataSize metaPtr metaSize st).1 =
          Except.ok n) ↔
        (¬ (dataPtr = 0 ∨ 4294967295 < dataSize ∨
            (¬ metaPtr = 0 ∧ AVAIL_BOP_LEN < metaSize) ∨
            (metaPtr = 0 ∧ ¬ metaSize = 0)) ∧
          env.bopOk = true ∧ env.dataOk = true ∧ env.eopOk = true ∧
            env.pushOk = true)) := by
  unfold vcmtpSendv3.sendProduct
  split_ifs with h1 h2 h3 h4 h5
  all_goals
    first
      | exact ⟨(sendProductRest_counter _ _ _ _ _ _).1,
          (sendProductRest_counter _ _ _ _ _ _).2,
          by
            rw [sendProductRest_ok_iff]
            exact ⟨fun hf => ⟨by tauto, hf⟩, fun hf => hf.2⟩⟩
      | exact ⟨by simp, by simp, by simp_all⟩

/-- Witness for C4: on a fresh sender a valid call in an all-success
environment returns index 0 and leaves the counter at 1; the same call with
a failing BOP send leaves the counter at 0. -/
theorem c4_prodindex_counter_witness :
    (vcmtpSendv3.sendProduct envOk 1 3 0 0 vcmtpSendv3.mkSender).1 =
        Except.ok 0 ∧
      (vcmtpSendv3.sendProduct envOk 1 3 0 0 vcmtpSendv3.mkSender).2.1.prodIndex = 1 ∧
      (vcmtpSendv3.sendProduct envBopFail 1 3 0 0 vcmtpSendv3.mkSender).2.1.prodIndex = 0 := by
  refine ⟨by decide, ?_, ?_⟩
  · have h := (c4_prodindex_counter envOk 1 3 0 0 vcmtpSendv3.mkSender).1 0
      (by decide)
    simpa using h.2
  · exact (c4_prodindex_counter envBopFail 1 3 0 0 vcmtpSendv3.mkSender).2.1
      (vcmtpSendv3.SendErr.runtimeError "SendBOPMessage failed") (by decide)

/-- A successful post-validation run pushes exactly one pair: the entry
prodindex with period `(endClock - startClock) * retxTimeoutRatio`. -/
theorem sendProductRest_pushed (env : vcmtpSendv3.SendEnv)
    (dataPtr dataSize metaPtr metaSize : Nat) (st : SenderState) (n : Nat)
    (hok : (vcmtpSendv3.sendProductRest env dataPtr dataSize metaPtr metaSize st).1 =
      Except.ok n) :
    (vcmtpSendv3.sendProductRest env dataPtr dataSize metaPtr metaSize st).2.2 =
      [(st.prodIndex, (env.endClock - env.startClock) * st.retxTimeoutRatio)] := by
  unfold vcmtpSendv3.sendProductRest at hok ⊢
  split_ifs at hok ⊢ <;>
    simp_all [vcmtpSendv3.addRetxMetadata, vcmtpSendv3.setTimerParameters]

/-- Claim C8: a successful `sendProduct` pushes exactly one pair into the
delay queue, whose period is `(mcastEndTime - mcastStartTime)` times the
entry's timeout ratio, and that ratio is the facade's configured one; the
two constructors that take no ratio configure 500000, the third takes the
caller's ratio, and all of them override the 20.0 default of the
`RetxMetadata` struct literal. -/
theorem c8_timeout_period (env : vcmtpSendv3.SendEnv)
    (dataPtr dataSize metaPtr metaSize : Nat) (st : SenderState) (n : Nat)
    (hok : (vcmtpSendv3.sendProduct env dataPtr dataSize metaPtr metaSize st).1 =
      Except.ok n) :
    (vcmtpSendv3.sendProduct env dataPtr dataSize metaPtr metaSize st).2.2 =
        [(st.prodIndex, (env.endClock - env.startClock) * st.retxTimeoutRatio)] ∧
      vcmtpSendv3.mkSender.retxTimeoutRatio = 500000 ∧
      (∀ i, (vcmtpSendv3.mkSenderAt i).retxTimeoutRatio = 500000) ∧
      (∀ i r, (vcmtpSendv3.mkSenderRatio i r).retxTimeoutRatio = r) ∧
      RetxMetadata.init.retxTimeoutRatio = 20 := by
  refine ⟨?_, rfl, fun i => rfl, fun i r => rfl, rfl⟩
  unfold vcmtpSendv3.sendProduct at hok ⊢
  split_ifs at hok ⊢ <;>
    first
      | exact sendProductRest_pushed env dataPtr dataSize metaPtr metaSize st n hok
      | simp at hok

/-- Witness for C8: the successful call of the C4 witness pushes product 0
with period `(3 - 1) * 500000`. -/
theorem c8_timeout_period_witness :
    (vcmtpSendv3.sendProduct envOk 1 3 0 0 vcmtpSendv3.mkSender).2.2 =
        [(vcmtpSendv3.mkSender.prodIndex,
          (envOk.endClock - envOk.startClock) * vcmtpSendv3.mkSender.retxTimeoutRatio)] ∧
      vcmtpSendv3.mkSender.retxTimeoutRatio = 500000 ∧
      (∀ i, (vcmtpSendv3.mkSenderAt i).retxTimeoutRatio = 500000) ∧
      (∀ i r, (vcmtpSendv3.mkSenderRatio i r).retxTimeoutRatio = r) ∧
      RetxMetadata.init.retxTimeoutRatio = 20 :=
  c8_timeout_period envOk 1 3 0 0 vcmtpSendv3.mkSender 0 (by decide)

/-- Claim C5 is violated by the code (a code bug): the loop of
`vcmtpSendv3::retransmit` never advances `start`, although its own comment
says it supports sending multiple blocks.  At the failing input — a
RETX_REQ with `seqnum` 0 and `payloadlen` 2896 against a 2896-byte product
over identity memory at address 0 — the source emits two frames, both with
header offset 0 and both carrying bytes 0..1448 of the product, so the
concatenation of the emitted bodies is not the product bytes 0..2896 that
the claim mandates (the byte at position 1448 of the concatenation is byte
0 of the product, not byte 1448). -/
theorem c5_retransmit_never_advances :
    vcmtpSendv3.retransmit memId 0 2896 metaC5 =
        [vcmtpSendv3.RetxFrame.mk 0 1448 (vcmtpSendv3.frameBytes memId 0 0 1448),
          vcmtpSendv3.RetxFrame.mk 0 1448 (vcmtpSendv3.frameBytes memId 0 0 1448)] ∧
      vcmtpSendv3.bodyConcat (vcmtpSendv3.retransmit memId 0 2896 metaC5) ≠
        vcmtpSendv3.frameBytes memId 0 0 2896 := by
  have hfr : vcmtpSendv3.retransmit memId 0 2896 metaC5 =
      [vcmtpSendv3.RetxFrame.mk 0 1448 (vcmtpSendv3.frameBytes memId 0 0 1448),
        vcmtpSendv3.RetxFrame.mk 0 1448 (vcmtpSendv3.frameBytes memId 0 0 1448)] := by
    unfold vcmtpSendv3.retransmit
    norm_num [metaC5, RetxMetadata.init, VCMTP_DATA_LEN]
    rw [vcmtpSendv3.retxLoop]
    norm_num
    rw [vcmtpSendv3.retxLoop]
    norm_num
    rw [vcmtpSendv3.retxLoop]
    norm_num
  refine ⟨hfr, ?_⟩
  intro hcontra
  rw [hfr] at hcontra
  have hidx := congrArg (fun l => l[1448]?) hcontra
  simp [vcmtpSendv3.bodyConcat, vcmtpSendv3.frameBytes, memId,
    List.getElem?_append_right, List.getElem?_map, List.getElem?_range,
    List.getElem_append_right, List.getElem_map, List.getElem_range] at hidx

/-- Claim C6: a RETX_REQ, BOP_REQ or EOP_REQ whose prodindex is absent from
the retransmission table makes the worker send exactly one RETX_REJ —
header-only, `seqnum` 0, `payloadlen` 0, echoing the requested
prodindex — and the table is not modified. -/
theorem c6_absent_request_rejected (mem : Nat → Nat) (recvheader : VcmtpHeader)
    (tbl : Table) (sock : ℤ)
    (habsent : senderMetadata.getMetadata tbl recvheader.prodindex = none)
    (hflag : recvheader.flags = VcmtpFlag.RETX_REQ ∨
      recvheader.flags = VcmtpFlag.BOP_REQ ∨
      recvheader.flags = VcmtpFlag.EOP_REQ) :
    vcmtpSendv3.workerStep mem recvheader tbl sock =
      (tbl,
        [TcpMsg.mk (VcmtpHeader.mk recvheader.prodindex 0 0 VcmtpFlag.RETX_REJ)
          MsgBody.empty],
        []) := by
  rcases hflag with h | h | h <;>
    simp [vcmtpSendv3.workerStep, h, habsent, vcmtpSendv3.handleRetxReq,
      vcmtpSendv3.handleBopReq, vcmtpSendv3.handleEopReq, vcmtpSendv3.rejRetxReq]

/-- Witness for C6: a RETX_REQ for product 9 against the empty table. -/
theorem c6_absent_request_rejected_witness :
    vcmtpSendv3.workerStep memId (VcmtpHeader.mk 9 0 4 VcmtpFlag.RETX_REQ) [] 1 =
      ([], [TcpMsg.mk (VcmtpHeader.mk 9 0 0 VcmtpFlag.RETX_REJ) MsgBody.empty], []) :=
  c6_absent_request_rejected memId (VcmtpHeader.mk 9 0 4 VcmtpFlag.RETX_REQ) [] 1
    rfl (Or.inl rfl)

/-- Claim C9 is false on the code as stated: the entry does not own an
insertion-time copy of the metadata bytes.  `vcmtpSendv3::addRetxMetadata`
caches the caller's pointer, and `vcmtpSendv3::retransBOP` copies
`metaSize` bytes from that pointer at retransmission time, so mutating the
caller's buffer after insertion changes what a later BOP retransmission
serves: for the entry `meta9` (metadata pointer 100, size 1), the RETX_BOP
built when every byte reads 2 differs from the one built when every byte
reads 1. -/
theorem c9_counterexample_retransBOP_reads_current_memory :
    vcmtpSendv3.retransBOP memAfter hdr9 meta9 ≠
      vcmtpSendv3.retransBOP memBefore hdr9 meta9 := by
  simp [vcmtpSendv3.retransBOP, meta9, vcmtpSendv3.addRetxMetadata,
    RetxMetadata.init, vcmtpSendv3.mkSender, memAfter, memBefore,
    List.range_succ]

/-- Claim C9 as amended: the entry caches the caller's metadata pointer and
size at insertion (no byte copy is taken), and `retransBOP` copies the
`metaSize` bytes found at the cached pointer at retransmission time; it
therefore serves the insertion-time bytes exactly as long as the caller's
buffer is unchanged — two memories that agree on the cached range yield
identical RETX_BOP messages. -/
theorem c9_amended_cached_pointer (st : SenderState)
    (dataPtr dataSize metaPtr metaSize : Nat) (socks : List ℤ) (now : ℚ)
    (recvheader : VcmtpHeader) (mem mem' : Nat → Nat)
    (hagree : ∀ k, k < metaSize → mem (metaPtr + k) = mem' (metaPtr + k)) :
    ((vcmtpSendv3.addRetxMetadata st dataPtr dataSize metaPtr metaSize socks now).1).metadata =
        metaPtr ∧
      ((vcmtpSendv3.addRetxMetadata st dataPtr dataSize metaPtr metaSize socks now).1).metaSize =
        metaSize ∧
      vcmtpSendv3.retransBOP mem recvheader
          ((vcmtpSendv3.addRetxMetadata st dataPtr dataSize metaPtr metaSize socks now).1) =
        vcmtpSendv3.retransBOP mem' recvheader
          ((vcmtpSendv3.addRetxMetadata st dataPtr dataSize metaPtr metaSize socks now).1) := by
  refine ⟨rfl, rfl, ?_⟩
  simp only [vcmtpSendv3.retransBOP, vcmtpSendv3.addRetxMetadata]
  congr 1
  refine congrArg _ (List.map_congr_left ?_)
  intro k hk
  exact hagree k (List.mem_range.mp hk)

/-- Witness for C9's amended claim: inserting a 1-byte metadata buffer at
address 100 and comparing the all-ones memory with one that differs only
below address 100. -/
theorem c9_amended_cached_pointer_witness :
    ((vcmtpSendv3.addRetxMetadata vcmtpSendv3.mkSender 1 4 100 1 [] 0).1).metadata = 100 ∧
      ((vcmtpSendv3.addRetxMetadata vcmtpSendv3.mkSender 1 4 100 1 [] 0).1).metaSize = 1 ∧
      vcmtpSendv3.retransBOP memBefore hdr9
          ((vcmtpSendv3.addRetxMetadata vcmtpSendv3.mkSender 1 4 100 1 [] 0).1) =
        vcmtpSendv3.retransBOP memLow hdr9
          ((vcmtpSendv3.addRetxMetadata vcmtpSendv3.mkSender 1 4 100 1 [] 0).1) :=
  c9_amended_cached_pointer vcmtpSendv3.mkSender 1 4 100 1 [] 0 hdr9 memBefore
    memLow (by decide)

/-- Claim C10: a received RETX_END never makes the worker write anything
back on the TCP connection, whether or not the entry is present; and when
the entry is absent from the table, `handleRetxEnd` performs no action at
all — no table modification, no rejection message, no application
notification. -/
theorem c10_end_writes_nothing (mem : Nat → Nat) (recvheader : VcmtpHeader)
    (tbl : Table) (sock : ℤ)
    (hflag : recvheader.flags = VcmtpFlag.RETX_END) :
    (vcmtpSendv3.workerStep mem recvheader tbl sock).2.1 = [] ∧
      (senderMetadata.getMetadata tbl recvheader.prodindex = none →
        vcmtpSendv3.workerStep mem recvheader tbl sock = (tbl, [], [])) := by
  constructor
  · simp only [vcmtpSendv3.workerStep, hflag]
    cases hg : senderMetadata.getMetadata tbl recvheader.prodindex <;>
      simp [vcmtpSendv3.handleRetxEnd, hg]
  · intro hn
    simp [vcmtpSendv3.workerStep, hflag, hn, vcmtpSendv3.handleRetxEnd]

/-- Witness for C10: a RETX_END for product 9 against the empty table. -/
theorem c10_end_writes_nothing_witness :
    (vcmtpSendv3.workerStep memId (VcmtpHeader.mk 9 0 0 VcmtpFlag.RETX_END) [] 1).2.1 = [] ∧
      vcmtpSendv3.workerStep memId (VcmtpHeader.mk 9 0 0 VcmtpFlag.RETX_END) [] 1 =
        ([], [], []) := by
  have h := c10_end_writes_nothing memId (VcmtpHeader.mk 9 0 0 VcmtpFlag.RETX_END)
    [] 1 rfl
  exact ⟨h.1, h.2 rfl⟩

end VCMTP
